import Mathlib

/-!
Shallow embedding of the kona derivation-pipeline slice:
  - crates/derive/src/batch/span_batch/utils.rs (read_tx_data,
    convert_v_to_y_parity, is_protected_v, and the alloy-rlp Header decoder
    they depend on),
  - crates/derive/src/pipeline/core.rs (DerivationPipeline step/signal/
    next/peek),
  - bin/kd8n/src/runner.rs (the fixture-driven run loop).

Bytes are modelled as `Nat` values (< 256 where it matters, stated as a
hypothesis when a theorem quantifies over byte slices); u64 arithmetic is
Nat arithmetic with explicit `% 2 ^ 64` at the one place the source can
wrap (`v - 35` in `convert_v_to_y_parity`). A Rust `&mut &[u8]` cursor is
modelled by returning the remaining suffix alongside the result, so that
consumption of a strict prefix on error paths is observable.
-/

namespace Kona

instance {ε α : Type} [DecidableEq ε] [DecidableEq α] : DecidableEq (Except ε α) :=
  fun a b =>
    match a, b with
    | .error x, .error y =>
      if h : x = y then .isTrue (by rw [h]) else .isFalse (by simp [h])
    | .ok x, .ok y =>
      if h : x = y then .isTrue (by rw [h]) else .isFalse (by simp [h])
    | .error _, .ok _ => .isFalse (by simp)
    | .ok _, .error _ => .isFalse (by simp)

/-! ### alloy-rlp `Header` (the dependency `read_tx_data` calls into) -/

/-- RLP decoding errors raised by `alloy_rlp::Header::decode`. -/
inductive RlpError
  | InputTooShort
  | NonCanonicalSingleByte
  | NonCanonicalSize
  | LeadingZero
deriving DecidableEq, Repr

/-- `alloy_rlp::Header`: whether the item is a list, and the payload length. -/
structure RlpHeader where
  list : Bool
  payloadLength : Nat
deriving DecidableEq, Repr

/-- Big-endian byte-string to `Nat`; models
`u64::from_be_bytes(static_left_pad(bytes))` (at most 8 bytes are ever
passed, each < 256, so the value fits in a u64 and the usize conversion on a
64-bit target never fails). -/
def beNat : List Nat → Nat
  | [] => 0
  | b :: bs => b * 256 ^ bs.length + beNat bs

/-- Minimal big-endian byte length of `n`; models the
`8 - leading_zeros/8` byte count used by `alloy_rlp::length_of_length` for
u64-sized values. -/
def byteLen (n : Nat) : Nat :=
  if h : n = 0 then 0 else byteLen (n / 256) + 1
termination_by n
decreasing_by exact Nat.div_lt_self (Nat.pos_of_ne_zero h) (by decide)

/-- `alloy_rlp::Header::length`: the encoded length of the header itself
(`length_of_length(payload_length)`). -/
def RlpHeader.length (h : RlpHeader) : Nat :=
  if h.payloadLength < 56 then 1 else 1 + byteLen h.payloadLength

/-- The long-form (`0xB8..=0xBF` / `0xF8..=0xFF`) arm of
`alloy_rlp::Header::decode`: read `codeLen` big-endian length bytes
(rejecting a leading zero and a non-canonical size), then check the payload
fits the remaining buffer. Returns the header and the buffer positioned
after the header. -/
def longDecode (isList : Bool) (codeLen : Nat) (rest : List Nat) :
    Except RlpError (RlpHeader × List Nat) :=
  if rest.length < codeLen then .error .InputTooShort
  else if (rest.take codeLen).head? = some 0 then .error .LeadingZero
  else
    let pl := beNat (rest.take codeLen)
    if pl < 56 then .error .NonCanonicalSize
    else if (rest.drop codeLen).length < pl then .error .InputTooShort
    else .ok (⟨isList, pl⟩, rest.drop codeLen)

/-- `alloy_rlp::Header::decode` on a byte slice; returns the decoded header
together with the remaining bytes (the slice advanced past the header).
The single-byte arm (`0x00..=0x7F`) does not advance the buffer. -/
def headerDecode (buf : List Nat) : Except RlpError (RlpHeader × List Nat) :=
  match buf with
  | [] => .error .InputTooShort
  | b :: rest =>
    if b ≤ 0x7F then
      .ok (⟨false, 1⟩, b :: rest)
    else if b ≤ 0xB7 then
      let pl := b - 0x80
      if pl = 1 then
        match rest with
        | [] => .error .InputTooShort
        | c :: _ =>
          if c < 0x80 then .error .NonCanonicalSingleByte
          else if rest.length < pl then .error .InputTooShort
          else .ok (⟨false, pl⟩, rest)
      else if rest.length < pl then .error .InputTooShort
      else .ok (⟨false, pl⟩, rest)
    else if b ≤ 0xBF then
      longDecode false (b - 0xB7) rest
    else if b ≤ 0xF7 then
      let pl := b - 0xC0
      if rest.length < pl then .error .InputTooShort
      else .ok (⟨true, pl⟩, rest)
    else
      longDecode true (b - 0xF7) rest

/-! ### span_batch/utils.rs -/

/-- `SpanDecodingError` (the variants this slice uses). -/
inductive SpanDecodingError
  | InvalidTransactionData
  | InvalidTransactionType
deriving DecidableEq, Repr

/-- `SpanBatchError` (the variant this slice uses). -/
inductive SpanBatchError
  | Decoding (e : SpanDecodingError)
deriving DecidableEq, Repr

/-- `alloy_consensus::TxType`. -/
inductive TxType
  | Legacy
  | Eip2930
  | Eip1559
  | Eip4844
  | Eip7702
deriving DecidableEq, Repr

/-- `TxType::try_from(u8)`: 0 → Legacy, 1 → Eip2930, 2 → Eip1559,
3 → Eip4844, 4 → Eip7702, anything else fails. -/
def txTypeFromByte (b : Nat) : Option TxType :=
  match b with
  | 0 => some .Legacy
  | 1 => some .Eip2930
  | 2 => some .Eip1559
  | 3 => some .Eip4844
  | 4 => some .Eip7702
  | _ => none

/-- The body of `read_tx_data` after the optional EIP-2718 type byte has
been handled: `txType` is the recorded type byte (0 when the first byte
was not a type tag), `tyBytes` is the already-pushed type-byte list, and
`r1` is the cursor after the optional one-byte advance. The RLP header is
decoded on a copy of `r1` (second component of `headerDecode` discarded),
so a decode failure leaves `r1` unconsumed. -/
def readTxBody (txType : Nat) (tyBytes : List Nat) (r1 : List Nat) :
    Except SpanBatchError (List Nat × TxType) × List Nat :=
  match headerDecode r1 with
  | .error _ => (.error (.Decoding .InvalidTransactionData), r1)
  | .ok (h, _) =>
    if h.list then
      let n := h.payloadLength + h.length
      match txTypeFromByte txType with
      | some t => (.ok (tyBytes ++ r1.take n, t), r1.drop n)
      | none => (.error (.Decoding .InvalidTransactionType), r1.drop n)
    else
      (.error (.Decoding .InvalidTransactionData), r1)

/-- `read_tx_data(r: &mut &[u8])`: returns the result together with the
final cursor (the remaining bytes). The slice-index `r[0..n]` in the source
cannot overrun (`headerDecode_list_bound` below), so `List.take`/`List.drop`
model it exactly. -/
def read_tx_data (r : List Nat) : Except SpanBatchError (List Nat × TxType) × List Nat :=
  match r with
  | [] => (.error (.Decoding .InvalidTransactionData), [])
  | firstByte :: rest =>
    if firstByte ≤ 0x7F then
      readTxBody firstByte [firstByte] rest
    else
      readTxBody 0 [] (firstByte :: rest)

/-- `convert_v_to_y_parity(v: u64, tx_type)`. The EIP-155 branch computes
`(v - 35) & 1` with u64 wrapping subtraction, modelled as
`(v + (2 ^ 64 - 35)) % 2 ^ 64`; in the unprotected branch `v ∈ {27, 28}`
so the `v - 27` subtraction cannot wrap and is plain Nat subtraction. -/
def convert_v_to_y_parity (v : Nat) (txType : TxType) : Except SpanBatchError Bool :=
  match txType with
  | .Legacy =>
    if v ≠ 27 ∧ v ≠ 28 then
      .ok (decide ((((v + (2 ^ 64 - 35)) % 2 ^ 64) &&& 1) = 1))
    else
      .ok (decide (v - 27 = 1))
  | .Eip2930 => .ok (decide (v = 1))
  | .Eip1559 => .ok (decide (v = 1))
  | _ => .error (.Decoding .InvalidTransactionType)

/-- `alloy_consensus::TxEnvelope`, reduced to what `is_protected_v`
inspects: the Legacy variant carries the signature `v` as a u64
(`tx.signature().v().to_u64()`); the other variants carry nothing this
function reads. -/
inductive TxEnvelope
  | Legacy (v : Nat)
  | Eip2930
  | Eip1559
  | Eip4844
  | Eip7702
deriving DecidableEq, Repr

/-- Bit width of `n` (position of the highest set bit). -/
def bitLen (n : Nat) : Nat :=
  if n = 0 then 0 else Nat.log2 n + 1

/-- `u64::leading_zeros` for a value `v < 2 ^ 64`. -/
def leadingZeros64 (v : Nat) : Nat :=
  64 - bitLen v

/-- `is_protected_v(tx: &TxEnvelope)`. -/
def is_protected_v (tx : TxEnvelope) : Bool :=
  match tx with
  | .Legacy v =>
    if 64 - leadingZeros64 v ≤ 8 then
      decide (v ≠ 27) && decide (v ≠ 28) && decide (v ≠ 1) && decide (v ≠ 0)
    else
      true
  | _ => true

/-! ### pipeline/core.rs -/

/-- `PipelineError` (the variants this slice uses). -/
inductive PipelineError
  | Eof
  | NotEnoughData
  | Provider (msg : String)
  | MissingOrigin
deriving DecidableEq, Repr

/-- `PipelineErrorKind`: the temporary/critical/reset classification
wrapper around `PipelineError` (the reset payload is not inspected by this
slice). -/
inductive PipelineErrorKind
  | Temporary (e : PipelineError)
  | Critical (e : PipelineError)
  | Reset
deriving DecidableEq, Repr

/-- `StepResult`. -/
inductive StepResult
  | PreparedAttributes
  | AdvancedOrigin
  | OriginAdvanceErr (e : PipelineErrorKind)
  | StepFailed (e : PipelineErrorKind)
deriving DecidableEq, Repr

/-- L1 `BlockInfo`, reduced to the field this slice reads. -/
structure BlockInfo where
  number : Nat
deriving DecidableEq, Repr

/-- `Signal`: `Reset { l2_safe_head, l1_origin }` (the safe head is only
read through `l2_safe_head.block_info.number`) or `FlushChannel`. -/
inductive Signal
  | Reset (l2SafeHeadNumber : Nat) (l1Origin : BlockInfo)
  | FlushChannel
deriving DecidableEq, Repr

namespace DerivationPipeline

/-- `DerivationPipeline::step(cursor)`. The behaviour of the top stage at this
call is abstracted by the outcome of `next_attributes(cursor)` (`na`) and,
should it be consulted, of `advance_origin()` (`adv`); `prepared` is the
prepared queue before the call. Returns the `StepResult` and the queue
after the call (the only mutation `step` performs on the pipeline). -/
def step {α : Type} (na : Except PipelineErrorKind α)
    (adv : Except PipelineErrorKind Unit) (prepared : List α) :
    StepResult × List α :=
  match na with
  | .ok a => (.PreparedAttributes, prepared ++ [a])
  | .error err =>
    match err with
    | .Temporary .Eof =>
      match adv with
      | .error e => (.OriginAdvanceErr e, prepared)
      | .ok _ => (.AdvancedOrigin, prepared)
    | _ => (.StepFailed err, prepared)

/-- `Iterator::next` for `DerivationPipeline`: `self.prepared.pop_front()`,
returning the popped element and the queue after the pop. -/
def next {α : Type} (prepared : List α) : Option α × List α :=
  match prepared with
  | [] => (none, [])
  | a :: t => (some a, t)

/-- `DerivationPipeline::peek`: `self.prepared.front()`, non-consuming. -/
def peek {α : Type} (prepared : List α) : Option α :=
  prepared.head?

/-- `DerivationPipeline::signal`. The L2 chain provider is abstracted by
`provider` (`system_config_by_number` keyed by the safe-head number, with
provider-defined error type `ε` and stringification `toStr`), the top
top-stage `reset(l1_origin, &system_config)` by `resetFn`, and the
`flush_channel()` by `flushRes`. -/
def signal {ε σ : Type} (toStr : ε → String) (provider : Nat → Except ε σ)
    (resetFn : BlockInfo → σ → Except PipelineErrorKind Unit)
    (flushRes : Except PipelineErrorKind Unit) (sig : Signal) :
    Except PipelineErrorKind Unit :=
  match sig with
  | .Reset l2SafeHeadNumber l1Origin =>
    match provider l2SafeHeadNumber with
    | .error e => .error (.Temporary (.Provider (toStr e)))
    | .ok systemConfig =>
      match resetFn l1Origin systemConfig with
      | .ok _ => .ok ()
      | .error err =>
        match err with
        | .Temporary .Eof => .ok ()
        | _ => .error err
  | .FlushChannel =>
    match flushRes with
    | .error e => .error e
    | .ok _ => .ok ()

/-- Push a list of records through `step` with `Ok` outcomes, in order,
starting from queue `q` (each push is the `push_back` in `step`). -/
def pushAll {α : Type} (xs : List α) (q : List α) : List α :=
  xs.foldl (fun acc a => (step (.ok a) (.ok ()) acc).2) q

/-- Pop `k` times through `next`, collecting the returned records in
order. -/
def drainN {α : Type} : Nat → List α → List α
  | 0, _ => []
  | k + 1, q =>
    match next q with
    | (none, _) => []
    | (some a, q2) => a :: drainN k q2

end DerivationPipeline

/-! ### bin/kd8n/src/runner.rs -/

/-- `L2BlockInfo`, reduced to the field the runner reads
(`cursor.block_info.number`). -/
structure L2BlockInfo where
  number : Nat
deriving DecidableEq, Repr

/-- `OptimismAttributesWithParent`, parametric in the payload type `π`
(the runner only compares `attributes` for equality). -/
structure AttributesWithParent (π : Type) where
  attributes : π
  parentNumber : Nat
deriving DecidableEq, Repr

/-- The mutable state of the runner loop: the L2 cursor, the
`advance_cursor_flag`, the prepared queue of the pipeline, and an iteration
counter used only to index the abstract per-iteration stage outcomes. -/
structure RunState (π : Type) where
  cursor : L2BlockInfo
  advanceFlag : Bool
  prepared : List (AttributesWithParent π)
  iter : Nat
deriving DecidableEq, Repr

/-- Outcome of one pass through the runner loop body: continue with a new
state, return `Err(msg)`, or break out with `Ok(())`. -/
inductive IterOutcome (π : Type)
  | cont (s : RunState π)
  | fail (msg : String)
  | done
deriving DecidableEq, Repr

/-- The step-validate-compare part of the runner loop body (everything
after the `advance_cursor_flag` block): step the pipeline (the match on
`StepResult` only logs, it never exits the loop), pop the next attributes
(`continue` when the queue is empty), look up the expected payload at the
block number of the cursor (`Err` when missing), compare (`Err` on mismatch),
and break out with success when the cursor is the end block. -/
def runStepAndValidate {π : Type} [DecidableEq π] (payloads : Nat → Option π)
    (endNum : Nat) (na : Except PipelineErrorKind (AttributesWithParent π))
    (adv : Except PipelineErrorKind Unit) (s : RunState π) : IterOutcome π :=
  let q := (DerivationPipeline.step na adv s.prepared).2
  match DerivationPipeline.next q with
  | (none, q2) => .cont { s with prepared := q2, iter := s.iter + 1 }
  | (some attrs, q2) =>
    match payloads s.cursor.number with
    | none => .fail "No expected payload found"
    | some expected =>
      if attrs.attributes = expected then
        if s.cursor.number = endNum then .done
        else .cont { s with prepared := q2, iter := s.iter + 1 }
      else .fail "Attributes do not match expected"

/-- One full pass through the runner loop body, including the
`advance_cursor_flag` block: when the flag is set, fetch
`l2_block_info_by_number(cursor.number + 1)`; on failure `continue`
without stepping, on success install the new cursor and clear the flag.
(The source never sets the flag to `true`, so the block is faithfully
modelled but only reachable from a flagged initial state.) -/
def runIter {π : Type} [DecidableEq π]
    (lookupInfo : Nat → Except String L2BlockInfo) (payloads : Nat → Option π)
    (endNum : Nat) (na : Except PipelineErrorKind (AttributesWithParent π))
    (adv : Except PipelineErrorKind Unit) (s : RunState π) : IterOutcome π :=
  if s.advanceFlag then
    match lookupInfo (s.cursor.number + 1) with
    | .error _ => .cont { s with iter := s.iter + 1 }
    | .ok bi =>
      runStepAndValidate payloads endNum na adv
        { s with cursor := bi, advanceFlag := false }
  else
    runStepAndValidate payloads endNum na adv s

/-- The runner main `loop`, fuelled: `naStream i` / `advStream i` are the top
top-stage `next_attributes` / `advance_origin` outcomes at the i-th loop
iteration. Returns `none` when fuel runs out (the source loop has no
timeout), otherwise the `Result` `run` returns. -/
def runLoop {π : Type} [DecidableEq π]
    (lookupInfo : Nat → Except String L2BlockInfo) (payloads : Nat → Option π)
    (endNum : Nat)
    (naStream : Nat → Except PipelineErrorKind (AttributesWithParent π))
    (advStream : Nat → Except PipelineErrorKind Unit) :
    Nat → RunState π → Option (Except String Unit)
  | 0, _ => none
  | fuel + 1, s =>
    match runIter lookupInfo payloads endNum (naStream s.iter) (advStream s.iter) s with
    | .cont s2 => runLoop lookupInfo payloads endNum naStream advStream fuel s2
    | .fail m => some (.error m)
    | .done => some (.ok ())

/-- `DerivationFixture`, reduced to the two maps the runner reads:
`l2_block_infos` (an association list keyed by block number) and
`l2_payloads`. -/
structure DerivationFixture (π : Type) where
  l2BlockInfos : List (Nat × L2BlockInfo)
  l2Payloads : Nat → Option π

/-- `keys().min()` of a map given as a key list. -/
def keyMin : List Nat → Option Nat
  | [] => none
  | k :: ks => some (ks.foldl Nat.min k)

/-- `keys().max()` of a map given as a key list. -/
def keyMax : List Nat → Option Nat
  | [] => none
  | k :: ks => some (ks.foldl Nat.max k)

/-- `map.get(k)` on an association list. -/
def lookupKey (xs : List (Nat × L2BlockInfo)) (k : Nat) : Option L2BlockInfo :=
  match xs with
  | [] => none
  | (k2, v) :: t => if k2 = k then some v else lookupKey t k

/-- `run(pipeline, fixture)`: compute the start cursor from the minimum
`l2_block_infos` key and the end block from the maximum key (failing with
the source messages when absent), then enter the loop with a cleared
advance flag and an empty prepared queue. -/
def run {π : Type} [DecidableEq π] (fx : DerivationFixture π)
    (lookupInfo : Nat → Except String L2BlockInfo)
    (naStream : Nat → Except PipelineErrorKind (AttributesWithParent π))
    (advStream : Nat → Except PipelineErrorKind Unit) (fuel : Nat) :
    Option (Except String Unit) :=
  match keyMin (fx.l2BlockInfos.map Prod.fst) with
  | none => some (.error "No blocks found")
  | some cursorNum =>
    match lookupKey fx.l2BlockInfos cursorNum with
    | none => some (.error "No block info found")
    | some cursor =>
      match keyMax (fx.l2BlockInfos.map Prod.fst) with
      | none => some (.error "No blocks found")
      | some endNum =>
        runLoop lookupInfo fx.l2Payloads endNum naStream advStream fuel
          ⟨cursor, false, [], 0⟩

/-! ### Helper lemmas -/

theorem byteLen_zero : byteLen 0 = 0 := by
  rw [byteLen]
  simp

theorem byteLen_pos (n : Nat) (h : n ≠ 0) : byteLen n = byteLen (n / 256) + 1 := by
  rw [byteLen]
  simp [h]

theorem byteLen_of_bounds (cl : Nat) :
    ∀ n : Nat, 256 ^ cl ≤ n → n < 256 ^ (cl + 1) → byteLen n = cl + 1 := by
  induction cl with
  | zero =>
    intro n h1 h2
    have hn : n ≠ 0 := by
      have h1a : (1 : Nat) ≤ n := by simpa using h1
      omega
    rw [byteLen_pos n hn]
    have hlt : n < 256 := by simpa using h2
    rw [Nat.div_eq_of_lt hlt, byteLen_zero]
  | succ cl ih =>
    intro n h1 h2
    have hpow : (1 : Nat) ≤ 256 ^ (cl + 1) := Nat.one_le_pow _ _ (by decide)
    have hn : n ≠ 0 := by omega
    rw [byteLen_pos n hn]
    have hlow : 256 ^ cl ≤ n / 256 := by
      rw [Nat.le_div_iff_mul_le (by decide : 0 < 256)]
      calc 256 ^ cl * 256 = 256 ^ (cl + 1) := (pow_succ 256 cl).symm
        _ ≤ n := h1
    have hhigh : n / 256 < 256 ^ (cl + 1) := by
      rw [Nat.div_lt_iff_lt_mul (by decide : 0 < 256)]
      calc n < 256 ^ (cl + 1 + 1) := h2
        _ = 256 ^ (cl + 1) * 256 := pow_succ 256 (cl + 1)
    rw [ih (n / 256) hlow hhigh]

theorem beNat_lt (bs : List Nat) (hb : ∀ x ∈ bs, x < 256) :
    beNat bs < 256 ^ bs.length := by
  induction bs with
  | nil => simp [beNat]
  | cons b t ih =>
    have hbt : ∀ x ∈ t, x < 256 := fun x hx => hb x (List.mem_cons_of_mem _ hx)
    have hb256 : b < 256 := hb b (List.mem_cons_self _ _)
    have ht := ih hbt
    simp only [beNat, List.length_cons, pow_succ]
    calc b * 256 ^ t.length + beNat t
        < b * 256 ^ t.length + 256 ^ t.length := by omega
      _ = (b + 1) * 256 ^ t.length := by ring
      _ ≤ 256 * 256 ^ t.length := Nat.mul_le_mul_right _ (by omega)
      _ = 256 ^ t.length * 256 := by ring

theorem le_beNat_cons (f : Nat) (t : List Nat) (hf : 1 ≤ f) :
    256 ^ t.length ≤ beNat (f :: t) := by
  simp only [beNat]
  calc 256 ^ t.length = 1 * 256 ^ t.length := (one_mul _).symm
    _ ≤ f * 256 ^ t.length := Nat.mul_le_mul_right _ hf
    _ ≤ f * 256 ^ t.length + beNat t := Nat.le_add_right _ _

theorem longDecode_ok (isList : Bool) (cl : Nat) (rest : List Nat)
    (hcl : 1 ≤ cl) (hb : ∀ x ∈ rest, x < 256) (h : RlpHeader) (rem : List Nat)
    (hd : longDecode isList cl rest = .ok (h, rem)) :
    h.list = isList ∧ 56 ≤ h.payloadLength ∧ byteLen h.payloadLength = cl ∧
    cl ≤ rest.length ∧ rem = rest.drop cl ∧ h.payloadLength ≤ rem.length := by
  unfold longDecode at hd
  dsimp only at hd
  split_ifs at hd with hlen hzero hsize hfit
  simp only [Except.ok.injEq, Prod.mk.injEq] at hd
  obtain ⟨hh, hr⟩ := hd
  subst hh
  subst hr
  dsimp only
  have hclle : cl ≤ rest.length := by omega
  have htklen : (rest.take cl).length = cl := by
    rw [List.length_take]
    omega
  have htkne : rest.take cl ≠ [] := by
    intro hnil
    rw [hnil] at htklen
    simp at htklen
    omega
  obtain ⟨f, t2, hft⟩ := List.exists_cons_of_ne_nil htkne
  have hf1 : 1 ≤ f := by
    rw [hft] at hzero
    simp only [List.head?, Option.some.injEq] at hzero
    omega
  have ht2len : t2.length = cl - 1 := by
    rw [hft] at htklen
    simp only [List.length_cons] at htklen
    omega
  have hbtk : ∀ x ∈ rest.take cl, x < 256 :=
    fun x hx => hb x (List.take_subset _ _ hx)
  have hup : beNat (rest.take cl) < 256 ^ cl := by
    have := beNat_lt (rest.take cl) hbtk
    rwa [htklen] at this
  have hlo : 256 ^ (cl - 1) ≤ beNat (rest.take cl) := by
    rw [hft]
    have := le_beNat_cons f t2 hf1
    rwa [ht2len] at this
  have hbl : byteLen (beNat (rest.take cl)) = cl := by
    have := byteLen_of_bounds (cl - 1) (beNat (rest.take cl)) hlo
      (by rw [show cl - 1 + 1 = cl by omega]; exact hup)
    rwa [show cl - 1 + 1 = cl by omega] at this
  refine ⟨rfl, by omega, hbl, hclle, rfl, by omega⟩

theorem headerDecode_list_bound (bs : List Nat) (hb : ∀ x ∈ bs, x < 256)
    (h : RlpHeader) (rem : List Nat) (hd : headerDecode bs = .ok (h, rem))
    (hl : h.list = true) :
    RlpHeader.length h + h.payloadLength ≤ bs.length := by
  cases bs with
  | nil => simp [headerDecode] at hd
  | cons b rest =>
    have hbrest : ∀ x ∈ rest, x < 256 :=
      fun x hx => hb x (List.mem_cons_of_mem _ hx)
    simp only [headerDecode] at hd
    split at hd
    · -- single byte: not a list
      simp only [Except.ok.injEq, Prod.mk.injEq] at hd
      obtain ⟨hh, _⟩ := hd
      rw [← hh] at hl
      simp at hl
    split at hd
    · -- short/long string arms: not a list
      rename_i hb7 hbB7
      split at hd
      · split at hd
        · simp at hd
        · split at hd
          · simp at hd
          · split at hd
            · simp at hd
            · simp only [Except.ok.injEq, Prod.mk.injEq] at hd
              obtain ⟨hh, _⟩ := hd
              rw [← hh] at hl
              simp at hl
      · split at hd
        · simp at hd
        · simp only [Except.ok.injEq, Prod.mk.injEq] at hd
          obtain ⟨hh, _⟩ := hd
          rw [← hh] at hl
          simp at hl
    split at hd
    · -- long string arm: longDecode with isList = false
      rename_i hb7 hbB7 hbBF
      have hcl : 1 ≤ b - 0xB7 := by omega
      obtain ⟨hlist, _, _, _, _, _⟩ :=
        longDecode_ok false (b - 0xB7) rest hcl hbrest h rem hd
      rw [hlist] at hl
      simp at hl
    split at hd
    · -- short list arm
      rename_i hb7 hbB7 hbBF hbF7
      split at hd
      · simp at hd
      · rename_i hfit
        simp only [Except.ok.injEq, Prod.mk.injEq] at hd
        obtain ⟨hh, hr⟩ := hd
        subst hh
        subst hr
        simp only [RlpHeader.length]
        rw [if_pos (by omega : b - 0xC0 < 56)]
        simp only [List.length_cons]
        omega
    · -- long list arm
      rename_i hb7 hbB7 hbBF hbF7
      have hcl : 1 ≤ b - 0xF7 := by omega
      obtain ⟨hlist, hpl56, hbl, hclle, hrem, hfit⟩ :=
        longDecode_ok true (b - 0xF7) rest hcl hbrest h rem hd
      simp only [RlpHeader.length]
      rw [if_neg (by omega : ¬h.payloadLength < 56)]
      rw [hbl]
      have hremlen : rem.length = rest.length - (b - 0xF7) := by
        rw [hrem, List.length_drop]
      simp only [List.length_cons]
      omega

theorem step_error_snd {α : Type} (err : PipelineErrorKind)
    (adv : Except PipelineErrorKind Unit) (q : List α) :
    (DerivationPipeline.step (.error err) adv q).2 = q := by
  cases err with
  | Temporary e =>
    cases e with
    | Eof => cases adv <;> rfl
    | NotEnoughData => rfl
    | Provider msg => rfl
    | MissingOrigin => rfl
  | Critical e => rfl
  | Reset => rfl

theorem pushAll_eq {α : Type} (xs : List α) :
    ∀ q : List α, DerivationPipeline.pushAll xs q = q ++ xs := by
  induction xs with
  | nil => intro q; simp [DerivationPipeline.pushAll]
  | cons a t ih =>
    intro q
    have hc : DerivationPipeline.pushAll (a :: t) q =
        DerivationPipeline.pushAll t (q ++ [a]) := rfl
    rw [hc, ih]
    simp

theorem drainN_length {α : Type} :
    ∀ xs : List α, DerivationPipeline.drainN xs.length xs = xs := by
  intro xs
  induction xs with
  | nil => rfl
  | cons a t ih =>
    simp only [List.length_cons, DerivationPipeline.drainN, DerivationPipeline.next]
    rw [ih]

theorem runLoop_ok_exists {π : Type} [DecidableEq π]
    (lookupInfo : Nat → Except String L2BlockInfo) (payloads : Nat → Option π)
    (endNum : Nat)
    (naStream : Nat → Except PipelineErrorKind (AttributesWithParent π))
    (advStream : Nat → Except PipelineErrorKind Unit) :
    ∀ (fuel : Nat) (s : RunState π),
      runLoop lookupInfo payloads endNum naStream advStream fuel s = some (.ok ()) →
      ∃ s2, runIter lookupInfo payloads endNum (naStream s2.iter) (advStream s2.iter) s2 = .done := by
  intro fuel
  induction fuel with
  | zero =>
    intro s h
    simp [runLoop] at h
  | succ fuel ih =>
    intro s h
    simp only [runLoop] at h
    cases hit : runIter lookupInfo payloads endNum (naStream s.iter) (advStream s.iter) s with
    | cont s2 =>
      rw [hit] at h
      exact ih s2 h
    | fail m =>
      rw [hit] at h
      simp at h
    | done => exact ⟨s, hit⟩

theorem runIter_done {π : Type} [DecidableEq π]
    (lookupInfo : Nat → Except String L2BlockInfo) (payloads : Nat → Option π)
    (endNum : Nat) (na : Except PipelineErrorKind (AttributesWithParent π))
    (adv : Except PipelineErrorKind Unit) (s : RunState π)
    (h : runIter lookupInfo payloads endNum na adv s = .done) :
    ∃ s2 : RunState π, s2.iter = s.iter ∧
      runStepAndValidate payloads endNum na adv s2 = .done := by
  unfold runIter at h
  split at h
  · cases hlk : lookupInfo (s.cursor.number + 1) with
    | error e =>
      rw [hlk] at h
      simp at h
    | ok bi =>
      rw [hlk] at h
      exact ⟨{ s with cursor := bi, advanceFlag := false }, rfl, h⟩
  · exact ⟨s, rfl, h⟩

theorem runStepAndValidate_done {π : Type} [DecidableEq π]
    (payloads : Nat → Option π) (endNum : Nat)
    (na : Except PipelineErrorKind (AttributesWithParent π))
    (adv : Except PipelineErrorKind Unit) (s : RunState π)
    (h : runStepAndValidate payloads endNum na adv s = .done) :
    s.cursor.number = endNum ∧
    ∃ attrs q2 expected,
      DerivationPipeline.next (DerivationPipeline.step na adv s.prepared).2 =
        (some attrs, q2) ∧
      payloads s.cursor.number = some expected ∧ attrs.attributes = expected := by
  unfold runStepAndValidate at h
  dsimp only at h
  cases hq : DerivationPipeline.next (DerivationPipeline.step na adv s.prepared).2 with
  | mk o q2 =>
    rw [hq] at h
    cases o with
    | none => simp at h
    | some attrs =>
      cases hp : payloads s.cursor.number with
      | none =>
        rw [hp] at h
        simp at h
      | some expected =>
        rw [hp] at h
        dsimp only at h
        split_ifs at h with hmatch hend
        exact ⟨hend, attrs, q2, expected, rfl, rfl, hmatch⟩

/-! ### Claim theorems -/

/-- C1: `DerivationPipeline::step` never returns a plain error (its return
type is `StepResult`, and the classification below is exhaustive over all
stage outcomes): when `next_attributes` returns `Ok(a)`, `step` pushes
exactly the one record `a` onto the back of the prepared queue, leaving
existing entries unchanged, and returns `PreparedAttributes`; when it fails
with a temporary `Eof`, `step` pushes nothing, consults `advance_origin`,
and returns `AdvancedOrigin` on success or `OriginAdvanceErr(e)` on
failure; on any other error it pushes nothing, does not consult
`advance_origin`, and returns `StepFailed(err)`; and the queue grows only
in the `PreparedAttributes` case, so no single call both pushes a record
and advances the origin. -/
theorem C1_step_classification {α : Type} (na : Except PipelineErrorKind α)
    (adv : Except PipelineErrorKind Unit) (q : List α) :
    (∀ a, na = .ok a →
      DerivationPipeline.step na adv q = (.PreparedAttributes, q ++ [a])) ∧
    (na = .error (.Temporary .Eof) → adv = .ok () →
      DerivationPipeline.step na adv q = (.AdvancedOrigin, q)) ∧
    (∀ e, na = .error (.Temporary .Eof) → adv = .error e →
      DerivationPipeline.step na adv q = (.OriginAdvanceErr e, q)) ∧
    (∀ err, na = .error err → err ≠ .Temporary .Eof →
      DerivationPipeline.step na adv q = (.StepFailed err, q)) ∧
    (∀ adv2, na ≠ .error (.Temporary .Eof) →
      DerivationPipeline.step na adv q = DerivationPipeline.step na adv2 q) ∧
    ((DerivationPipeline.step na adv q).2 ≠ q →
      ∃ a, na = .ok a ∧
        (DerivationPipeline.step na adv q).1 = .PreparedAttributes ∧
        (DerivationPipeline.step na adv q).2 = q ++ [a]) := by
  refine ⟨?_, ?_, ?_, ?_, ?_, ?_⟩
  · rintro a rfl
    rfl
  · rintro rfl rfl
    rfl
  · rintro e rfl rfl
    rfl
  · rintro err rfl hne
    cases err with
    | Temporary e =>
      cases e with
      | Eof => exact absurd rfl hne
      | NotEnoughData => rfl
      | Provider msg => rfl
      | MissingOrigin => rfl
    | Critical e => rfl
    | Reset => rfl
  · intro adv2 hne
    cases na with
    | ok a => rfl
    | error err =>
      cases err with
      | Temporary e =>
        cases e with
        | Eof => exact absurd rfl hne
        | NotEnoughData => rfl
        | Provider msg => rfl
        | MissingOrigin => rfl
      | Critical e => rfl
      | Reset => rfl
  · intro hne
    cases na with
    | ok a => exact ⟨a, rfl, rfl, rfl⟩
    | error err => exact absurd (step_error_snd err adv q) hne

/-- Witness for C1 at concrete inputs: a successful stage outcome pushes
the record, a temporary `Eof` advances the origin, and a non-`Eof` error is
folded into `StepFailed`. -/
theorem C1_step_classification_witness :
    DerivationPipeline.step (Except.ok 7) (Except.ok ()) [1, 2] =
      (StepResult.PreparedAttributes, [1, 2, 7]) ∧
    DerivationPipeline.step
      (Except.error (PipelineErrorKind.Temporary PipelineError.Eof))
      (Except.ok ()) ([] : List Nat) = (StepResult.AdvancedOrigin, []) ∧
    DerivationPipeline.step (Except.error PipelineErrorKind.Reset)
      (Except.ok ()) ([] : List Nat) =
      (StepResult.StepFailed PipelineErrorKind.Reset, []) :=
  ⟨(C1_step_classification (Except.ok 7) (Except.ok ()) [1, 2]).1 7 rfl,
   (C1_step_classification _ _ _).2.1 rfl rfl,
   (C1_step_classification _ _ _).2.2.2.1 PipelineErrorKind.Reset rfl (by decide)⟩

/-- C3: `convert_v_to_y_parity` returns `Ok(v == 28)` for Legacy with
`v ∈ {27, 28}`, `Ok(((v - 35) & 1) == 1)` for Legacy with `v ≥ 35`,
`Ok(v == 1)` for Eip2930 and Eip1559, and
`Err(Decoding(InvalidTransactionType))` for Eip4844 and Eip7702; in
particular the six concrete evaluations of the spec hold. -/
theorem C3_convert_v_to_y_parity (v : Nat) (hv : v < 2 ^ 64) :
    ((v = 27 ∨ v = 28) →
      convert_v_to_y_parity v .Legacy = .ok (decide (v = 28))) ∧
    (35 ≤ v →
      convert_v_to_y_parity v .Legacy = .ok (decide ((v - 35) &&& 1 = 1))) ∧
    convert_v_to_y_parity v .Eip2930 = .ok (decide (v = 1)) ∧
    convert_v_to_y_parity v .Eip1559 = .ok (decide (v = 1)) ∧
    convert_v_to_y_parity v .Eip4844 = .error (.Decoding .InvalidTransactionType) ∧
    convert_v_to_y_parity v .Eip7702 = .error (.Decoding .InvalidTransactionType) ∧
    convert_v_to_y_parity 27 .Legacy = .ok false ∧
    convert_v_to_y_parity 28 .Legacy = .ok true ∧
    convert_v_to_y_parity 36 .Legacy = .ok true ∧
    convert_v_to_y_parity 37 .Legacy = .ok false ∧
    convert_v_to_y_parity 1 .Eip2930 = .ok true ∧
    convert_v_to_y_parity 1 .Eip1559 = .ok true := by
  refine ⟨?_, ?_, rfl, rfl, rfl, rfl, by decide, by decide, by decide,
    by decide, by decide, by decide⟩
  · rintro (rfl | rfl) <;> decide
  · intro h35
    have hmod : (v + (2 ^ 64 - 35)) % 2 ^ 64 = v - 35 := by
      have h2 : (2 : Nat) ^ 64 = 18446744073709551616 := by norm_num
      rw [h2] at hv ⊢
      omega
    simp only [convert_v_to_y_parity]
    rw [if_pos (by omega : v ≠ 27 ∧ v ≠ 28), hmod]

/-- Witness for C3 at `v = 36`: the EIP-155 branch with the claimed
parity expression. -/
theorem C3_convert_v_to_y_parity_witness :
    convert_v_to_y_parity 36 .Legacy = .ok (decide ((36 - 35) &&& 1 = 1)) :=
  (C3_convert_v_to_y_parity 36 (by norm_num)).2.1 (by decide)

/-- C7: for Legacy and every `v` not in `{27, 28}` below 35 (in particular
`v = 0` and `v = 1`), `convert_v_to_y_parity` returns `Ok` with the
deterministic parity `((v - 35) & 1) == 1` computed with the u64 wrapping
subtraction `(v + (2 ^ 64 - 35)) % 2 ^ 64`; for such `v` this parity equals
`v % 2 = 0`, so `v = 0` yields `Ok(true)` and `v = 1` yields `Ok(false)`. -/
theorem C7_eip155_small_v (v : Nat) (h27 : v ≠ 27) (h28 : v ≠ 28)
    (hlt : v < 35) :
    convert_v_to_y_parity v .Legacy =
      .ok (decide ((((v + (2 ^ 64 - 35)) % 2 ^ 64) &&& 1) = 1)) ∧
    convert_v_to_y_parity v .Legacy = .ok (decide (v % 2 = 0)) ∧
    convert_v_to_y_parity 0 .Legacy = .ok true ∧
    convert_v_to_y_parity 1 .Legacy = .ok false := by
  have hgen : ∀ w : Nat, w ≠ 27 → w ≠ 28 →
      convert_v_to_y_parity w .Legacy =
        .ok (decide ((((w + (2 ^ 64 - 35)) % 2 ^ 64) &&& 1) = 1)) := by
    intro w h27w h28w
    simp only [convert_v_to_y_parity]
    rw [if_pos ⟨h27w, h28w⟩]
  have hpar : ∀ w : Nat, w < 35 →
      decide ((((w + (2 ^ 64 - 35)) % 2 ^ 64) &&& 1) = 1) = decide (w % 2 = 0) := by
    intro w hw
    have h2 : (2 : Nat) ^ 64 = 18446744073709551616 := by norm_num
    have hself : (w + (2 ^ 64 - 35)) % 2 ^ 64 = w + (2 ^ 64 - 35) := by
      rw [h2]
      omega
    rw [hself, Nat.and_one_is_mod, h2]
    exact decide_eq_decide.mpr (by omega)
  refine ⟨hgen v h27 h28, ?_, ?_, ?_⟩
  · rw [hgen v h27 h28, hpar v hlt]
  · rw [hgen 0 (by decide) (by decide), hpar 0 (by decide)]
    decide
  · rw [hgen 1 (by decide) (by decide), hpar 1 (by decide)]
    decide

/-- Witness for C7 at `v = 0`: the wrapped parity is `Ok(true)`. -/
theorem C7_eip155_small_v_witness :
    convert_v_to_y_parity 0 .Legacy = .ok (decide ((0 : Nat) % 2 = 0)) :=
  (C7_eip155_small_v 0 (by decide) (by decide) (by decide)).2.1

/-- C6: `is_protected_v` on a Legacy envelope whose u64 `v` fits in 8 bits
(the `64 - leading_zeros(v) ≤ 8` test, equivalent to `v ≤ 255`) is true
iff `v` is none of 0, 1, 27, 28; on a Legacy envelope with larger `v` it
is unconditionally true; and on every non-Legacy envelope it is
unconditionally true. -/
theorem C6_is_protected_v (v : Nat) (hv : v < 2 ^ 64) :
    (v ≤ 255 → is_protected_v (.Legacy v) =
      decide (v ≠ 0 ∧ v ≠ 1 ∧ v ≠ 27 ∧ v ≠ 28)) ∧
    (255 < v → is_protected_v (.Legacy v) = true) ∧
    is_protected_v .Eip2930 = true ∧ is_protected_v .Eip1559 = true ∧
    is_protected_v .Eip4844 = true ∧ is_protected_v .Eip7702 = true := by
  have hbit : bitLen v ≤ 64 := by
    by_cases h0 : v = 0
    · simp [bitLen, h0]
    · have hlog : Nat.log2 v < 64 := (Nat.log2_lt h0).mpr hv
      simp only [bitLen, if_neg h0]
      omega
  have hcond : (64 - leadingZeros64 v ≤ 8) ↔ v < 256 := by
    unfold leadingZeros64
    rw [show 64 - (64 - bitLen v) = bitLen v by omega]
    by_cases h0 : v = 0
    · subst h0
      simp [bitLen]
    · simp only [bitLen, if_neg h0]
      have h256 : (2 : Nat) ^ 8 = 256 := by norm_num
      constructor
      · intro hle
        have hv8 : v < 2 ^ 8 := (Nat.log2_lt h0).mp (by omega)
        rw [h256] at hv8
        omega
      · intro hlt
        have := (Nat.log2_lt h0).mpr (by rw [h256]; omega : v < 2 ^ 8)
        omega
  refine ⟨?_, ?_, rfl, rfl, rfl, rfl⟩
  · intro hle
    simp only [is_protected_v]
    rw [if_pos (hcond.mpr (by omega))]
    simp only [← Bool.decide_and]
    exact decide_eq_decide.mpr (by tauto)
  · intro hgt
    simp only [is_protected_v]
    rw [if_neg (by rw [hcond]; omega)]

/-- Witness for C6: `v = 37` (small, protected), `v = 27` (small,
unprotected), `v = 300` (does not fit in 8 bits). -/
theorem C6_is_protected_v_witness :
    is_protected_v (.Legacy 37) = decide ((37 : Nat) ≠ 0 ∧ (37 : Nat) ≠ 1 ∧
      (37 : Nat) ≠ 27 ∧ (37 : Nat) ≠ 28) ∧
    is_protected_v (.Legacy 27) = decide ((27 : Nat) ≠ 0 ∧ (27 : Nat) ≠ 1 ∧
      (27 : Nat) ≠ 27 ∧ (27 : Nat) ≠ 28) ∧
    is_protected_v (.Legacy 300) = true :=
  ⟨(C6_is_protected_v 37 (by norm_num)).1 (by norm_num),
   (C6_is_protected_v 27 (by norm_num)).1 (by norm_num),
   (C6_is_protected_v 300 (by norm_num)).2.1 (by norm_num)⟩

/-- C8: the prepared queue is FIFO and `peek`/`next` never reorder: `peek`
is non-consuming and returns exactly the element the next `next` pops;
`next` on an empty queue returns `None`; after `step` pushes a single
record `A` onto an empty queue, `peek` returns `Some(&A)`, then `next`
returns `Some(A)`, then `next` returns `None`; and `next` returns records
in exactly the order `step` pushed them. -/
theorem C8_prepared_queue_fifo {α : Type} (q xs : List α) (a : α)
    (adv : Except PipelineErrorKind Unit) :
    DerivationPipeline.peek q = (DerivationPipeline.next q).1 ∧
    DerivationPipeline.next ([] : List α) = (none, []) ∧
    DerivationPipeline.peek (DerivationPipeline.step (.ok a) adv ([] : List α)).2 = some a ∧
    DerivationPipeline.next (DerivationPipeline.step (.ok a) adv ([] : List α)).2 = (some a, []) ∧
    DerivationPipeline.next
      (DerivationPipeline.next (DerivationPipeline.step (.ok a) adv ([] : List α)).2).2 =
      (none, []) ∧
    DerivationPipeline.drainN xs.length (DerivationPipeline.pushAll xs ([] : List α)) = xs := by
  refine ⟨?_, rfl, rfl, rfl, rfl, ?_⟩
  · cases q <;> rfl
  · rw [pushAll_eq]
    simp only [List.nil_append]
    exact drainN_length xs

/-- C2 counterexample: on input `[0x01]` the RLP header decode fails
(the slice after the type byte is empty), `read_tx_data` returns
`Decoding(InvalidTransactionData)` — but the cursor is NOT at its original
offset: the one type byte was already consumed before the header decode
was attempted, so the final cursor is `[]`, not the original `[0x01]`. -/
theorem C2_typed_prefix_consumed_counterexample :
    (read_tx_data [1]).1 = .error (.Decoding .InvalidTransactionData) ∧
    (read_tx_data [1]).2 = [] ∧ ([] : List Nat) ≠ [1] := by
  decide

/-- C2 (amended): for every input on which the RLP header decode inside
`read_tx_data` fails, the function returns
`Decoding(InvalidTransactionData)`; the cursor is left at its original
offset with no bytes consumed when the first byte is > 0x7F (legacy case),
while in the typed-envelope case (first byte ≤ 0x7F) exactly the one type
byte has been consumed, leaving the cursor at original offset + 1. -/
theorem C2_cursor_on_header_decode_failure (b : Nat) (rest : List Nat)
    (e : RlpError)
    (hd : headerDecode (if b ≤ 0x7F then rest else b :: rest) = .error e) :
    read_tx_data (b :: rest) =
      (.error (.Decoding .InvalidTransactionData),
       if b ≤ 0x7F then rest else b :: rest) := by
  by_cases hb : b ≤ 0x7F
  · rw [if_pos hb] at hd ⊢
    simp only [read_tx_data]
    rw [if_pos hb]
    simp only [readTxBody, hd]
  · rw [if_neg hb] at hd ⊢
    simp only [read_tx_data]
    rw [if_neg hb]
    simp only [readTxBody, hd]

/-- Witness for C2 (amended) at `[0x81]`: a legacy-case decode failure
leaves the cursor untouched. -/
theorem C2_cursor_on_header_decode_failure_witness :
    read_tx_data [129] = (.error (.Decoding .InvalidTransactionData), [129]) := by
  have h := C2_cursor_on_header_decode_failure 129 [] RlpError.InputTooShort (by decide)
  simpa using h

/-- C5: on success `read_tx_data` consumes exactly one transaction: with
`n = (1 if the first byte ≤ 0x7F else 0) + payload_length + header-length`,
the returned vector equals exactly the first `n` bytes of the input, the final
cursor is the input with those `n` bytes dropped, and `n` never exceeds
the input length; if the decoded RLP item is not a list the call fails
with `Decoding(InvalidTransactionData)` (cursor past only the optional
type byte); and if the recorded type byte maps to no known transaction
type the call fails with `Decoding(InvalidTransactionType)`. -/
theorem C5_read_tx_data_exact (b : Nat) (rest : List Nat)
    (hb : ∀ x ∈ b :: rest, x < 256) (h : RlpHeader) (hrem : List Nat)
    (hd : headerDecode (if b ≤ 0x7F then rest else b :: rest) = .ok (h, hrem)) :
    (h.list = true → ∀ t, txTypeFromByte (if b ≤ 0x7F then b else 0) = some t →
      read_tx_data (b :: rest) =
        (.ok ((b :: rest).take
            ((if b ≤ 0x7F then 1 else 0) + (h.payloadLength + h.length)), t),
         (b :: rest).drop
            ((if b ≤ 0x7F then 1 else 0) + (h.payloadLength + h.length))) ∧
      (if b ≤ 0x7F then 1 else 0) + (h.payloadLength + h.length) ≤
        (b :: rest).length) ∧
    (h.list = false → read_tx_data (b :: rest) =
      (.error (.Decoding .InvalidTransactionData),
       if b ≤ 0x7F then rest else b :: rest)) ∧
    (h.list = true → txTypeFromByte (if b ≤ 0x7F then b else 0) = none →
      (read_tx_data (b :: rest)).1 = .error (.Decoding .InvalidTransactionType)) := by
  by_cases hb7 : b ≤ 0x7F
  · rw [if_pos hb7] at hd
    simp only [if_pos hb7]
    have hbrest : ∀ x ∈ rest, x < 256 :=
      fun x hx => hb x (List.mem_cons_of_mem _ hx)
    refine ⟨?_, ?_, ?_⟩
    · intro hl t ht
      have hbound := headerDecode_list_bound rest hbrest h hrem hd hl
      constructor
      · simp only [read_tx_data]
        rw [if_pos hb7]
        simp only [readTxBody, hd, hl, if_true, ht]
        rw [show 1 + (h.payloadLength + h.length) =
          (h.payloadLength + h.length) + 1 by omega]
        simp [List.take_succ_cons, List.drop_succ_cons]
      · simp only [List.length_cons]
        omega
    · intro hl
      simp only [read_tx_data]
      rw [if_pos hb7]
      simp only [readTxBody, hd, hl]
      simp
    · intro hl ht
      simp only [read_tx_data]
      rw [if_pos hb7]
      simp only [readTxBody, hd, hl, if_true, ht]
  · rw [if_neg hb7] at hd
    simp only [if_neg hb7]
    refine ⟨?_, ?_, ?_⟩
    · intro hl t ht
      have hbound := headerDecode_list_bound (b :: rest) hb h hrem hd hl
      constructor
      · simp only [read_tx_data]
        rw [if_neg hb7]
        simp only [readTxBody, hd, hl, if_true, ht]
        simp [Nat.zero_add]
      · omega
    · intro hl
      simp only [read_tx_data]
      rw [if_neg hb7]
      simp only [readTxBody, hd, hl]
      simp
    · intro hl ht
      simp only [read_tx_data]
      rw [if_neg hb7]
      simp only [readTxBody, hd, hl, if_true, ht]

/-- Witness for C5 at the legacy input `[0xC2, 0x01, 0x02]`: one whole
transaction (the full RLP list, header included) is consumed and
returned. -/
theorem C5_read_tx_data_exact_witness :
    read_tx_data [194, 1, 2] = (.ok ([194, 1, 2], TxType.Legacy), []) := by
  have hmain := (C5_read_tx_data_exact 194 [1, 2] (by decide) ⟨true, 2⟩ [1, 2]
    (by decide)).1 rfl TxType.Legacy (by decide)
  simpa using hmain.1

/-- C10: `read_tx_data` accepts `0x00` as an EIP-2718 type tag: on every
input whose first byte is `0x00` followed by a valid RLP list, it succeeds
and returns `TxType::Legacy` together with a byte vector beginning with
the `0x00` type byte followed by the RLP list — the leading zero byte is
not rejected. -/
theorem C10_zero_type_byte_accepted (rest : List Nat) (h : RlpHeader)
    (hrem : List Nat) (hd : headerDecode rest = .ok (h, hrem))
    (hl : h.list = true) :
    read_tx_data (0 :: rest) =
      (.ok (0 :: rest.take (h.payloadLength + h.length), .Legacy),
       rest.drop (h.payloadLength + h.length)) := by
  simp only [read_tx_data]
  rw [if_pos (by decide : (0 : Nat) ≤ 0x7F)]
  simp only [readTxBody, hd, hl, if_true]
  simp [txTypeFromByte]

/-- Witness for C10 at `[0x00, 0xC0]` (type byte 0, then the empty RLP
list). -/
theorem C10_zero_type_byte_accepted_witness :
    read_tx_data [0, 192] = (.ok ([0, 192], TxType.Legacy), []) := by
  have h := C10_zero_type_byte_accepted [192] ⟨true, 0⟩ [] (by decide) rfl
  simpa using h

/-- C4: on `signal(Signal::Reset { l2_safe_head, l1_origin })`: if the L2
chain provider call `system_config_by_number(l2_safe_head.number)` fails,
`signal` returns a temporary `Provider` error wrapping the stringified
provider error, and the top-stage `reset` is never invoked (the outcome
is independent of the reset behaviour, so the pipeline state is
unchanged); if the provider succeeds, `reset(l1_origin, &system_config)`
is invoked and `signal` returns `Ok(())` both when reset returns `Ok` and
when it fails with `Temporary(Eof)`, while any other reset error is
returned to the caller. -/
theorem C4_signal_reset (ε σ : Type) (toStr : ε → String)
    (provider : Nat → Except ε σ)
    (resetFn : BlockInfo → σ → Except PipelineErrorKind Unit)
    (flushRes : Except PipelineErrorKind Unit) (n : Nat) (l1 : BlockInfo) :
    (∀ e, provider n = .error e →
      DerivationPipeline.signal toStr provider resetFn flushRes (.Reset n l1) =
        .error (.Temporary (.Provider (toStr e))) ∧
      ∀ resetFn2, DerivationPipeline.signal toStr provider resetFn flushRes (.Reset n l1) =
        DerivationPipeline.signal toStr provider resetFn2 flushRes (.Reset n l1)) ∧
    (∀ cfg, provider n = .ok cfg →
      (resetFn l1 cfg = .ok () →
        DerivationPipeline.signal toStr provider resetFn flushRes (.Reset n l1) = .ok ()) ∧
      (resetFn l1 cfg = .error (.Temporary .Eof) →
        DerivationPipeline.signal toStr provider resetFn flushRes (.Reset n l1) = .ok ()) ∧
      (∀ err, resetFn l1 cfg = .error err → err ≠ .Temporary .Eof →
        DerivationPipeline.signal toStr provider resetFn flushRes (.Reset n l1) =
          .error err)) := by
  constructor
  · intro e he
    constructor
    · simp only [DerivationPipeline.signal, he]
    · intro resetFn2
      simp only [DerivationPipeline.signal, he]
  · intro cfg hcfg
    refine ⟨?_, ?_, ?_⟩
    · intro hres
      simp only [DerivationPipeline.signal, hcfg, hres]
    · intro hres
      simp only [DerivationPipeline.signal, hcfg, hres]
    · intro err hres hne
      simp only [DerivationPipeline.signal, hcfg, hres]

/-- Witness for C4: a failing provider yields the wrapped temporary
`Provider` error; a reset ending in temporary `Eof` still yields
`Ok(())`. -/
theorem C4_signal_reset_witness :
    DerivationPipeline.signal (fun s : String => s)
      (fun _ : Nat => (Except.error "nope" : Except String Nat))
      (fun _ _ => Except.ok ()) (Except.ok ()) (Signal.Reset 0 ⟨0⟩) =
      Except.error (PipelineErrorKind.Temporary (PipelineError.Provider "nope")) ∧
    DerivationPipeline.signal (fun s : String => s)
      (fun _ : Nat => (Except.ok 5 : Except String Nat))
      (fun _ _ => Except.error (PipelineErrorKind.Temporary PipelineError.Eof))
      (Except.ok ()) (Signal.Reset 0 ⟨0⟩) = Except.ok () :=
  ⟨((C4_signal_reset String Nat _ _ _ _ 0 ⟨0⟩).1 "nope" rfl).1,
   ((C4_signal_reset String Nat _ _ _ _ 0 ⟨0⟩).2 5 rfl).2.1 rfl⟩

/-- C9: in the runner loop, a `StepFailed` outcome never aborts the run
— an erroring step yields an iteration outcome independent of the error
(and, with an empty queue, the loop simply continues); a popped attributes
record whose `attributes` field differs from the expected fixture
payload at the cursor block number makes the iteration fail, and a
failing iteration makes `run` return that error immediately; a missing
expected payload for the cursor likewise fails; and `run` returns `Ok`
only after an iteration in which the popped attributes at a cursor equal
to the maximum fixture block number validated successfully. -/
theorem C9_runner_policy (π : Type) [DecidableEq π]
    (lookupInfo : Nat → Except String L2BlockInfo) (payloads : Nat → Option π)
    (endNum : Nat) (s : RunState π) :
    (∀ e1 e2 adv1 adv2,
      runStepAndValidate payloads endNum (.error e1) adv1 s =
        runStepAndValidate payloads endNum (.error e2) adv2 s) ∧
    (∀ e adv, s.prepared = [] →
      runStepAndValidate payloads endNum (.error e) adv s =
        .cont { s with iter := s.iter + 1 }) ∧
    (∀ na adv attrs q2 expected,
      DerivationPipeline.next (DerivationPipeline.step na adv s.prepared).2 =
        (some attrs, q2) →
      payloads s.cursor.number = some expected → attrs.attributes ≠ expected →
      runStepAndValidate payloads endNum na adv s =
        .fail "Attributes do not match expected") ∧
    (∀ na adv attrs q2,
      DerivationPipeline.next (DerivationPipeline.step na adv s.prepared).2 =
        (some attrs, q2) →
      payloads s.cursor.number = none →
      runStepAndValidate payloads endNum na adv s =
        .fail "No expected payload found") ∧
    (∀ naStream advStream fuel m,
      runIter lookupInfo payloads endNum (naStream s.iter) (advStream s.iter) s =
        .fail m →
      runLoop lookupInfo payloads endNum naStream advStream (fuel + 1) s =
        some (.error m)) ∧
    (∀ (fx : DerivationFixture π) naStream advStream fuel,
      fx.l2Payloads = payloads →
      run fx lookupInfo naStream advStream fuel = some (.ok ()) →
      ∃ (endN : Nat) (s2 : RunState π) (attrs : AttributesWithParent π)
        (q2 : List (AttributesWithParent π)) (expected : π),
        keyMax (fx.l2BlockInfos.map Prod.fst) = some endN ∧
        s2.cursor.number = endN ∧
        DerivationPipeline.next
          (DerivationPipeline.step (naStream s2.iter) (advStream s2.iter)
            s2.prepared).2 = (some attrs, q2) ∧
        payloads s2.cursor.number = some expected ∧
        attrs.attributes = expected) := by
  refine ⟨?_, ?_, ?_, ?_, ?_, ?_⟩
  · intro e1 e2 adv1 adv2
    simp only [runStepAndValidate, step_error_snd]
  · intro e adv hq
    obtain ⟨c, f, q, i⟩ := s
    simp only at hq
    subst hq
    simp only [runStepAndValidate, step_error_snd, DerivationPipeline.next]
  · intro na adv attrs q2 expected hq hp hne
    simp only [runStepAndValidate, hq, hp]
    rw [if_neg hne]
  · intro na adv attrs q2 hq hp
    simp only [runStepAndValidate, hq, hp]
  · intro naStream advStream fuel m hfail
    simp only [runLoop, hfail]
  · intro fx naStream advStream fuel hpay hok
    unfold run at hok
    cases hmin : keyMin (fx.l2BlockInfos.map Prod.fst) with
    | none => simp [hmin] at hok
    | some cursorNum =>
      simp only [hmin] at hok
      cases hget : lookupKey fx.l2BlockInfos cursorNum with
      | none => simp [hget] at hok
      | some cursor =>
        simp only [hget] at hok
        cases hmax : keyMax (fx.l2BlockInfos.map Prod.fst) with
        | none => simp [hmax] at hok
        | some endN =>
          simp only [hmax] at hok
          obtain ⟨s1, hiter⟩ :=
            runLoop_ok_exists lookupInfo fx.l2Payloads endN naStream advStream
              fuel ⟨cursor, false, [], 0⟩ hok
          obtain ⟨s2, hi2, hsv⟩ :=
            runIter_done lookupInfo fx.l2Payloads endN (naStream s1.iter)
              (advStream s1.iter) s1 hiter
          obtain ⟨hcur, attrs, q2, expected, hnext, hpexp, hmatch⟩ :=
            runStepAndValidate_done fx.l2Payloads endN (naStream s1.iter)
              (advStream s1.iter) s2 hsv
          rw [hpay] at hpexp
          rw [← hi2] at hnext
          exact ⟨endN, s2, attrs, q2, expected, rfl, hcur, hnext, hpexp, hmatch⟩

/-- Witness for C9: a popped record mismatching the expected payload makes
the iteration fail with the message of the source. -/
theorem C9_runner_policy_witness :
    runStepAndValidate (fun _ : Nat => some 5) 0
      (Except.error (PipelineErrorKind.Temporary PipelineError.Eof))
      (Except.ok ()) (⟨⟨0⟩, false, [⟨7, 0⟩], 0⟩ : RunState Nat) =
      .fail "Attributes do not match expected" :=
  (C9_runner_policy Nat (fun _ => Except.error "x") (fun _ => some 5) 0
    ⟨⟨0⟩, false, [⟨7, 0⟩], 0⟩).2.2.1 _ _ ⟨7, 0⟩ [] 5 rfl rfl (by decide)

end Kona
